import Mathlib

/-!
Verification of the asynchronous media-analysis pipeline against its
natural-language specification.  The definitions below are shallow
embeddings of the TypeScript sources: `src/src/services/cacheService.ts`
(two-tier cache), `src/src/services/aiService.ts` (`AIService`),
`src/unnamed/part_007` (`AIAnalysisService`), and
`src/src/workers/imageAnalysisWorker.ts`.  Machine integers are modelled
as `Nat`/`Int`, JavaScript promises settling as explicit outcome values,
and fallible operations as `Except`.
-/

/-! ## Cache value domain

JavaScript values stored in the caches, restricted to the
JSON-representable shapes the services actually store (strings, numbers,
booleans, null, arrays).  `JSON.stringify`/`JSON.parse` round-trips these
values identically, so the L2 tier stores the value itself. -/

inductive CVal where
  | vstr (s : String)
  | vnum (n : Int)
  | vbool (b : Bool)
  | vnull
  | varr (elems : List CVal)

/-- JavaScript truthiness: `''`, `0`, `false` and `null` are falsy;
every array (even `[]`) is truthy. -/
def CVal.truthy : CVal → Bool
  | .vstr s => !(s == "")
  | .vnum n => !(n == 0)
  | .vbool b => b
  | .vnull => false
  | .varr _ => true

/-- One cache entry: the stored value and its absolute expiry instant
(seconds).  Corresponds to `CacheEntry: \x7bkey, value, expiresAt\x7d`. -/
structure CacheEntry where
  value : CVal
  expiresAt : Nat

/-- State of the two-tier cache of `cacheService.ts`: the process-local
NodeCache (`memoryCache`, L1), the shared Redis store (L2), whether
`redisClient && redisClient.isOpen` holds, and whether every Redis
access throws (the L2-failure regime). -/
structure CacheState where
  l1 : List (String × CacheEntry)
  l2 : List (String × CacheEntry)
  l2open : Bool
  l2fails : Bool

/-- NodeCache `stdTTL: 300` — the default TTL used by every
`memoryCache.set(key, v)` call (none passes an explicit TTL). -/
def memoryCacheStdTTL : Nat := 300

def lookupEntry (m : List (String × CacheEntry)) (key : String) : Option CacheEntry :=
  (m.find? (fun e => e.1 == key)).map Prod.snd

/-- The value a TTL store hands back at instant `now`: present and not
yet expired.  NodeCache/Redis never return an expired entry. -/
def liveValue (now : Nat) : Option CacheEntry → Option CVal
  | some e => if now < e.expiresAt then some e.value else none
  | none => none

def storeEntry (m : List (String × CacheEntry)) (key : String) (v : CVal)
    (expiresAt : Nat) : List (String × CacheEntry) :=
  (key, ⟨v, expiresAt⟩) :: m.filter (fun e => !(e.1 == key))

def eraseEntry (m : List (String × CacheEntry)) (key : String) :
    List (String × CacheEntry) :=
  m.filter (fun e => !(e.1 == key))

/-- `redisClient.get(key)`: throws when the L2 tier is failing,
otherwise returns the live entry (or null on miss). -/
def redisGet (st : CacheState) (now : Nat) (key : String) :
    Except String (Option CVal) :=
  if st.l2fails then .error "Redis Client Error"
  else .ok (liveValue now (lookupEntry st.l2 key))

/-- `redisClient.setEx(key, ttl, JSON.stringify(data))`. -/
def redisSetEx (st : CacheState) (now : Nat) (key : String) (ttl : Nat)
    (v : CVal) : Except String CacheState :=
  if st.l2fails then .error "Redis Client Error"
  else .ok { st with l2 := storeEntry st.l2 key v (now + ttl) }

/-- `redisClient.del(key)`. -/
def redisDel (st : CacheState) (key : String) : Except String CacheState :=
  if st.l2fails then .error "Redis Client Error"
  else .ok { st with l2 := eraseEntry st.l2 key }

/-- The miss branch of `getWithCache` (`cacheService.ts:62-72`): invoke
`fetchFn`, store in the memory cache (default TTL) and, when Redis is
open, `setEx` with the caller's `ttl`.  `fetchFn` is modelled by the
value `fetchVal` it resolves to.  On a throw the error carries the state
already mutated before it (the L1 write precedes the Redis write). -/
def getWithCacheMiss (st : CacheState) (now : Nat) (key : String)
    (fetchVal : CVal) (ttl : Nat) :
    Except (String × CacheState) (CVal × CacheState) :=
  let data := fetchVal
  let st1 := { st with l1 := storeEntry st.l1 key data (now + memoryCacheStdTTL) }
  if st1.l2open then
    match redisSetEx st1 now key ttl data with
    | .error e => .error (e, st1)
    | .ok st2 => .ok (data, st2)
  else .ok (data, st1)

/-- The L2 branch of `getWithCache` (`cacheService.ts:50-60`): when
Redis is open, look the key up there; a hit backfills L1 (default TTL)
and returns the parsed value. -/
def getWithCacheL2 (st : CacheState) (now : Nat) (key : String)
    (fetchVal : CVal) (ttl : Nat) :
    Except (String × CacheState) (CVal × CacheState) :=
  if st.l2open then
    match redisGet st now key with
    | .error e => .error (e, st)
    | .ok (some redisCached) =>
        .ok (redisCached,
          { st with l1 := storeEntry st.l1 key redisCached (now + memoryCacheStdTTL) })
    | .ok none => getWithCacheMiss st now key fetchVal ttl
  else getWithCacheMiss st now key fetchVal ttl

/-- The `try` body of `getWithCache` (`cacheService.ts:42-72`): L1 check
first — `if (memCached)` also rejects a stored falsy value — then the
L2 branch. -/
def getWithCacheBody (st : CacheState) (now : Nat) (key : String)
    (fetchVal : CVal) (ttl : Nat) :
    Except (String × CacheState) (CVal × CacheState) :=
  match liveValue now (lookupEntry st.l1 key) with
  | some memCached =>
      if memCached.truthy then .ok (memCached, st)
      else getWithCacheL2 st now key fetchVal ttl
  | none => getWithCacheL2 st now key fetchVal ttl

/-- `getWithCache(key, fetchFn, ttl)` (`cacheService.ts:37-78`).  The
`catch` swallows every cache error and falls back to a direct
`fetchFn()` call, so the function as a whole never throws. -/
def getWithCache (st : CacheState) (now : Nat) (key : String)
    (fetchVal : CVal) (ttl : Nat) : CVal × CacheState :=
  match getWithCacheBody st now key fetchVal ttl with
  | .ok r => r
  | .error (_, stErr) => (fetchVal, stErr)

/-- The `try` body of `setCache` (`cacheService.ts:86-93`): memory-cache
write (default TTL), then `setEx` with the caller's `ttl` when open. -/
def setCacheBody (st : CacheState) (now : Nat) (key : String) (data : CVal)
    (ttl : Nat) : Except (String × CacheState) CacheState :=
  let st1 := { st with l1 := storeEntry st.l1 key data (now + memoryCacheStdTTL) }
  if st1.l2open then
    match redisSetEx st1 now key ttl data with
    | .error e => .error (e, st1)
    | .ok st2 => .ok st2
  else .ok st1

/-- `setCache(key, data, ttl)` (`cacheService.ts:81-97`): errors are
logged and swallowed. -/
def setCache (st : CacheState) (now : Nat) (key : String) (data : CVal)
    (ttl : Nat) : CacheState :=
  match setCacheBody st now key data ttl with
  | .ok st' => st'
  | .error (_, stErr) => stErr

/-- The `try` body of `deleteCache` (`cacheService.ts:101-108`). -/
def deleteCacheBody (st : CacheState) (key : String) :
    Except (String × CacheState) CacheState :=
  let st1 := { st with l1 := eraseEntry st.l1 key }
  if st1.l2open then
    match redisDel st1 key with
    | .error e => .error (e, st1)
    | .ok st2 => .ok st2
  else .ok st1

/-- `deleteCache(key)` (`cacheService.ts:100-112`): errors swallowed. -/
def deleteCache (st : CacheState) (key : String) : CacheState :=
  match deleteCacheBody st key with
  | .ok st' => st'
  | .error (_, stErr) => stErr

/-! ## Tags and the rule-based fallback extractor (`src/unnamed/part_007`) -/

inductive TagCategory where
  | object | person | emotion | activity | location | event
deriving DecidableEq, Repr

/-- `SmartTag` (`part_007:21-27`); the optional `synonyms`/`relatedTags`
fields are never produced by the embedded code paths and are omitted. -/
structure SmartTag where
  name : String
  category : TagCategory
  confidence : ℚ
deriving DecidableEq, Repr

/-- The stopword list of `extractTagsFromText` (`part_007:489`). -/
def stopWords : List String := ["this", "that", "with", "from", "have", "there"]

/-- Splitting a character list at whitespace, the list analogue of
JavaScript `split(/\s+/)` (runs of whitespace contribute only empty
strings, which the length filter below discards in both readings). -/
def splitOnWhitespaceAux (cur : List Char) : List Char → List (List Char)
  | [] => [cur.reverse]
  | c :: cs =>
      if c.isWhitespace then cur.reverse :: splitOnWhitespaceAux [] cs
      else splitOnWhitespaceAux (c :: cur) cs

/-- JavaScript `toLowerCase()`. -/
def jsToLower (s : String) : String := (s.toList.map Char.toLower).asString

/-- JavaScript `split(/\s+/)` on a string. -/
def jsSplitWhitespace (s : String) : List String :=
  (splitOnWhitespaceAux [] s.toList).map List.asString

/-- The caption words that qualify as potential tags
(`part_007:486-490`): lowercase the caption, split on whitespace, keep
words longer than 3 characters that are not stopwords. -/
def captionWords (caption : String) : List String :=
  (jsSplitWhitespace (jsToLower caption)).filter
    (fun word => word.length > 3 && !(stopWords.contains word))

/-- One step of the caption-word loop (`part_007:492-501`): append the
word as an `activity` tag unless a tag of that name is already present. -/
def addCaptionTag (tags : List SmartTag) (tag : String) : List SmartTag :=
  if tags.any (fun t => t.name == tag) then tags
  else tags ++ [{ name := tag, category := .activity, confidence := 5/10 }]

/-- `AIAnalysisService.extractTagsFromText` (`part_007:450-504`): one
`object` tag per detected object, one `location` tag when the scene is
truthy and not `"unknown"`, one `emotion` tag per emotion, then
deduplicated caption-word `activity` tags. -/
def extractTagsFromText (caption : String) (objects : List String)
    (scene : String) (emotions : List String) : List SmartTag :=
  let objectTags : List SmartTag :=
    objects.map (fun object => { name := jsToLower object, category := .object, confidence := 8/10 })
  let sceneTags : List SmartTag :=
    if scene ≠ "" ∧ scene ≠ "unknown" then
      [{ name := jsToLower scene, category := .location, confidence := 7/10 }]
    else []
  let emotionTags : List SmartTag :=
    emotions.map (fun e => { name := jsToLower e, category := .emotion, confidence := 6/10 })
  (captionWords caption).foldl addCaptionTag (objectTags ++ sceneTags ++ emotionTags)

/-! ## Tag-synthesis prompts -/

/-- The template-literal prompt of
`AIAnalysisService.generateSmartTags` (`part_007:389-405`).  Its inputs
are the caption, the detected object names, the scene label and the
detected emotions — extracted text is not an input. -/
def smartTagPrompt (caption : String) (objects : List String)
    (scene : String) (emotions : List String) : String :=
  "\n      Based on this image analysis:\n      - Caption: \"" ++ caption ++
  "\"\n      - Objects detected: " ++ String.intercalate ", " objects ++
  "\n      - Scene type: " ++ scene ++
  "\n      - Emotions: " ++ String.intercalate ", " emotions ++
  "\n      \n      Generate 8-12 relevant, searchable tags categorized as:\n      - Objects (what's in the image)\n      - People (relationships, activities)\n      - Emotions (mood, feelings)\n      - Activities (what's happening)\n      - Locations (where type of place)\n      - Events (occasion, celebration)\n      \n      Return as JSON array with confidence scores.\n      "

/-- JavaScript `xs.join(', ') || dflt`: the joined string, or the
default when it is empty (falsy). -/
def joinOr (xs : List String) (dflt : String) : String :=
  let s := String.intercalate ", " xs
  if s = "" then dflt else s

/-- JavaScript `caption || 'No caption available'` for a
`string | null` caption. -/
def captionOr (caption : Option String) : String :=
  match caption with
  | some c => if c = "" then "No caption available" else c
  | none => "No caption available"

/-- The template-literal prompt of `AIService.generateTags`
(`aiService.ts:366-382`).  Its inputs are the caption, the detected
object names, the scene label and the extracted text — exactly the four
of the specification. -/
def generateTagsPrompt (caption : Option String) (objects : List String)
    (scene : String) (extractedText : List String) : String :=
  "\n      Based on this image analysis:\n      - Caption: \"" ++ captionOr caption ++
  "\"\n      - Objects detected: " ++ joinOr objects "None detected" ++
  "\n      - Scene type: " ++ (if scene = "" then "Unknown" else scene) ++
  "\n      - Text in image: " ++ joinOr extractedText "None detected" ++
  "\n      \n      Generate 8-12 relevant, searchable tags categorized as:\n      - Objects (what's in the image)\n      - People (relationships, activities)\n      - Emotions (mood, feelings)\n      - Activities (what's happening)\n      - Locations (where type of place)\n      - Events (occasion, celebration)\n      \n      Return as JSON array with confidence scores.\n      "

/-! ## `AIAnalysisService.analyzeImage` (`src/unnamed/part_007`) -/

/-- Outcome of one settled promise, as reported by
`Promise.allSettled`. -/
inductive Settled (α : Type) where
  | fulfilled (value : α)
  | rejected
deriving DecidableEq, Repr

def Settled.valueOr {α : Type} : Settled α → α → α
  | .fulfilled v, _ => v
  | .rejected, d => d

def Settled.isRejected {α : Type} : Settled α → Bool
  | .fulfilled _ => false
  | .rejected => true

structure BoundingBox where
  x : ℚ
  y : ℚ
  width : ℚ
  height : ℚ
deriving DecidableEq, Repr

/-- `FaceDetection` (`part_007:29-38`); the optional `personId` is never
set by the analysis path and is omitted. -/
structure FaceDetection where
  boundingBox : BoundingBox
  confidence : ℚ
deriving DecidableEq, Repr

/-- `AnalysisResult` (`part_007:11-19`).  Note: the aggregate has no
`objects` field — detected objects feed only tag synthesis. -/
structure AnalysisResult where
  caption : String
  tags : List SmartTag
  faces : List FaceDetection
  extractedText : List String
  scene : String
  emotions : List String
  processingTimeMs : Nat
deriving DecidableEq, Repr

/-- `ApiError(statusCode, message)` thrown by the `catch` of
`analyzeImage` (`part_007:96-99`). -/
structure ApiError where
  statusCode : Nat
  message : String
deriving DecidableEq, Repr

/-- `AIAnalysisService.generateSmartTags` (`part_007:376-448`) with the
network and JSON-parsing outcome abstracted: `tagApi = some tags` is a
successful tag-generation call whose response parsed to `tags` (a
cache hit behaves the same, returning previously produced tags);
`tagApi = none` is any failure — request error, parse error or missing
JSON — every one of which falls back to `extractTagsFromText`. -/
def generateSmartTags (caption : String) (objects : List String)
    (scene : String) (emotions : List String)
    (tagApi : Option (List SmartTag)) : List SmartTag :=
  match tagApi with
  | some tags => tags
  | none => extractTagsFromText caption objects scene emotions

/-- `AIAnalysisService.analyzeImage` (`part_007:63-100`).  The six
subtask promises are settled by `Promise.allSettled`; each parameter is
the corresponding settled outcome.  A rejected branch contributes its
default (`''`/`[]`/`''`/`[]` into tag synthesis; `'No caption
available'`/`[]`/`[]`/`'unknown'`/`[]` into the aggregate).
`elapsedMs` is the measured `Date.now()` difference. -/
def analyzeImage (captionR : Settled String) (objectsR : Settled (List String))
    (facesR : Settled (List FaceDetection)) (extractedTextR : Settled (List String))
    (sceneR : Settled String) (emotionsR : Settled (List String))
    (tagApi : Option (List SmartTag)) (elapsedMs : Nat) : AnalysisResult :=
  let tags := generateSmartTags (captionR.valueOr "") (objectsR.valueOr [])
    (sceneR.valueOr "") (emotionsR.valueOr []) tagApi
  { caption := captionR.valueOr "No caption available"
    tags := tags
    faces := facesR.valueOr []
    extractedText := extractedTextR.valueOr []
    scene := sceneR.valueOr "unknown"
    emotions := emotionsR.valueOr []
    processingTimeMs := elapsedMs }

/-- `analyzeImage` as the caller observes it: `Promise.allSettled` never
rejects and everything after it is total, so the `try` body always
resolves and the `catch` that would throw `ApiError(500, ...)` is
unreachable. -/
def analyzeImageE (captionR : Settled String) (objectsR : Settled (List String))
    (facesR : Settled (List FaceDetection)) (extractedTextR : Settled (List String))
    (sceneR : Settled String) (emotionsR : Settled (List String))
    (tagApi : Option (List SmartTag)) (elapsedMs : Nat) :
    Except ApiError AnalysisResult :=
  .ok (analyzeImage captionR objectsR facesR extractedTextR sceneR emotionsR tagApi elapsedMs)

/-! ## `AIService.analyzeImage` (`src/src/services/aiService.ts`) -/

/-- An entry of `AIAnalysisResult.objects` (`aiService.ts:25`); the
optional `boundingBox: any` payload is omitted. -/
structure DetectedObject where
  name : String
  confidence : ℚ
deriving DecidableEq, Repr

/-- An entry of `AIAnalysisResult.faces` (`aiService.ts:26`); the
optional `landmarks: any` payload is omitted. -/
structure AIFace where
  boundingBox : BoundingBox
  confidence : ℚ
deriving DecidableEq, Repr

/-- `AIAnalysisResult.scene` (`aiService.ts:28`). -/
structure SceneResult where
  type : String
  confidence : ℚ
deriving DecidableEq, Repr

/-- `AIAnalysisResult` (`aiService.ts:23-38`): every field of a failed
or disabled subtask is `null`, modelled as `none`. -/
structure AIAnalysisResult where
  caption : Option String
  objects : Option (List DetectedObject)
  faces : Option (List AIFace)
  extractedText : Option (List String)
  scene : Option SceneResult
  tags : Option (List SmartTag)
  processingTime : Nat
deriving DecidableEq, Repr

/-- The options of `AIService.analyzeImage` (`aiService.ts:96-104`),
after the all-true defaulting of lines 110-119.  `detectEmotions`
exists but is never consulted by the task fan-out. -/
structure AnalyzeOptions where
  generateCaption : Bool
  detectObjects : Bool
  detectFaces : Bool
  extractText : Bool
  classifyScene : Bool
  detectEmotions : Bool
  generateTags : Bool
deriving DecidableEq, Repr

/-- `AIService.analyzeImage` (`aiService.ts:94-187`).  Each enabled
subtask resolves to its outcome (`none` when the subtask failed — the
private helpers catch every error and return `null`); a disabled
subtask is `Promise.resolve(null)`.  `tagJob` is the tag-generation
job keyed by the prompt it is given (`none` = job failure, which
`generateTags` converts to `null`). -/
def AIService.analyzeImage (opts : AnalyzeOptions)
    (captionR : Option String) (objectsR : Option (List DetectedObject))
    (facesR : Option (List AIFace)) (textR : Option (List String))
    (sceneR : Option SceneResult)
    (tagJob : String → Option (List SmartTag)) (elapsed : Nat) : AIAnalysisResult :=
  let caption := if opts.generateCaption then captionR else none
  let objects := if opts.detectObjects then objectsR else none
  let faces := if opts.detectFaces then facesR else none
  let extractedText := if opts.extractText then textR else none
  let scene := if opts.classifyScene then sceneR else none
  let tags :=
    if opts.generateTags then
      tagJob (generateTagsPrompt caption
        ((objects.map (fun os => os.map DetectedObject.name)).getD [])
        ((scene.map SceneResult.type).getD "")
        (extractedText.getD []))
    else none
  { caption := caption
    objects := objects
    faces := faces
    extractedText := extractedText
    scene := scene
    tags := tags
    processingTime := elapsed }

/-! ## Content fingerprints

`AIAnalysisService.hashBuffer` (`part_007:506-508`) is
`buffer.toString('base64').substring(0, 20)`; `AIService.hashBuffer`
(`aiService.ts:403-408`) is the full SHA-256 hex digest.  Byte buffers
are `List Nat` with every byte below 256. -/

def base64Alphabet : List Char :=
  "ABCDEFGHIJKLMNOPQRSTUVWXYZabcdefghijklmnopqrstuvwxyz0123456789+/".toList

def base64Char (n : Nat) : Char := base64Alphabet.getD n '='

/-- Standard base64 of a byte list (`Buffer.prototype.toString('base64')`). -/
def base64Encode : List Nat → List Char
  | [] => []
  | [b1] =>
      [base64Char (b1 / 4), base64Char (b1 % 4 * 16), '=', '=']
  | [b1, b2] =>
      [base64Char (b1 / 4), base64Char (b1 % 4 * 16 + b2 / 16),
       base64Char (b2 % 16 * 4), '=']
  | b1 :: b2 :: b3 :: rest =>
      base64Char (b1 / 4) :: base64Char (b1 % 4 * 16 + b2 / 16) ::
      base64Char (b2 % 16 * 4 + b3 / 64) :: base64Char (b3 % 64) ::
      base64Encode rest

/-- `AIAnalysisService.hashBuffer` (`part_007:506-508`):
`buffer.toString('base64').substring(0, 20)` — only the first 20 base64
characters, i.e. only the first 15 bytes of the buffer. -/
def AIAnalysisService.hashBuffer (buffer : List Nat) : String :=
  ((base64Encode buffer).take 20).asString

/-! SHA-256 (FIPS 180-4), the digest `crypto.createHash('sha256')`
computes, on 32-bit words represented as `Nat` reduced mod `2^32`. -/

def w32 (n : Nat) : Nat := n % 4294967296

def rotr (n x : Nat) : Nat := w32 ((x >>> n) ||| (x <<< (32 - n)))

def sha256Ch (x y z : Nat) : Nat := (x &&& y) ^^^ ((x ^^^ 4294967295) &&& z)

def sha256Maj (x y z : Nat) : Nat := (x &&& y) ^^^ (x &&& z) ^^^ (y &&& z)

def bigSigma0 (x : Nat) : Nat := rotr 2 x ^^^ rotr 13 x ^^^ rotr 22 x

def bigSigma1 (x : Nat) : Nat := rotr 6 x ^^^ rotr 11 x ^^^ rotr 25 x

def smallSigma0 (x : Nat) : Nat := rotr 7 x ^^^ rotr 18 x ^^^ (x >>> 3)

def smallSigma1 (x : Nat) : Nat := rotr 17 x ^^^ rotr 19 x ^^^ (x >>> 10)

def sha256K : List Nat :=
  [1116352408, 1899447441, 3049323471, 3921009573, 961987163, 1508970993,
   2453635748, 2870763221, 3624381080, 310598401, 607225278, 1426881987,
   1925078388, 2162078206, 2614888103, 3248222580, 3835390401, 4022224774,
   264347078, 604807628, 770255983, 1249150122, 1555081692, 1996064986,
   2554220882, 2821834349, 2952996808, 3210313671, 3336571891, 3584528711,
   113926993, 338241895, 666307205, 773529912, 1294757372, 1396182291,
   1695183700, 1986661051, 2177026350, 2456956037, 2730485921, 2820302411,
   3259730800, 3345764771, 3516065817, 3600352804, 4094571909, 275423344,
   430227734, 506948616, 659060556, 883997877, 958139571, 1322822218,
   1537002063, 1747873779, 1955562222, 2024104815, 2227730452, 2361852424,
   2428436474, 2756734187, 3204031479, 3329325298]

/-- The SHA-256 working state (eight 32-bit words). -/
structure Sha256State where
  a : Nat
  b : Nat
  c : Nat
  d : Nat
  e : Nat
  f : Nat
  g : Nat
  h : Nat
deriving DecidableEq, Repr

def sha256Init : Sha256State :=
  ⟨1779033703, 3144134277, 1013904242, 2773480762,
   1359893119, 2600822924, 528734635, 1541459225⟩

/-- Pad the message: append `0x80`, zeros to 56 mod 64, then the bit
length as eight big-endian bytes. -/
def sha256Pad (msg : List Nat) : List Nat :=
  let len := msg.length
  let zeros := (119 - len % 64) % 64
  msg ++ [0x80] ++ List.replicate zeros 0 ++
    (List.range 8).map (fun i => (len * 8) >>> (8 * (7 - i)) % 256)

/-- Big-endian 32-bit words from a byte list. -/
def bytesToWords : List Nat → List Nat
  | b0 :: b1 :: b2 :: b3 :: rest =>
      ((b0 <<< 24) ||| (b1 <<< 16) ||| (b2 <<< 8) ||| b3) :: bytesToWords rest
  | _ => []

/-- Extend 16 message words to the 64-entry message schedule. -/
def sha256Schedule (ws : List Nat) : List Nat :=
  (List.range 48).foldl
    (fun w _ =>
      let i := w.length
      w ++ [w32 (smallSigma1 (w.getD (i - 2) 0) + w.getD (i - 7) 0 +
        smallSigma0 (w.getD (i - 15) 0) + w.getD (i - 16) 0)])
    ws

/-- One compression round. -/
def sha256Round (w : List Nat) (st : Sha256State) (i : Nat) : Sha256State :=
  let t1 := w32 (st.h + bigSigma1 st.e + sha256Ch st.e st.f st.g +
    sha256K.getD i 0 + w.getD i 0)
  let t2 := w32 (bigSigma0 st.a + sha256Maj st.a st.b st.c)
  ⟨w32 (t1 + t2), st.a, st.b, st.c, w32 (st.d + t1), st.e, st.f, st.g⟩

/-- Compress one 64-byte block into the running state. -/
def sha256Compress (st : Sha256State) (block : List Nat) : Sha256State :=
  let w := sha256Schedule (bytesToWords block)
  let r := (List.range 64).foldl (sha256Round w) st
  ⟨w32 (st.a + r.a), w32 (st.b + r.b), w32 (st.c + r.c), w32 (st.d + r.d),
   w32 (st.e + r.e), w32 (st.f + r.f), w32 (st.g + r.g), w32 (st.h + r.h)⟩

def sha256Digest (msg : List Nat) : Sha256State :=
  let padded := sha256Pad msg
  (List.range (padded.length / 64)).foldl
    (fun st i => sha256Compress st ((padded.drop (64 * i)).take 64))
    sha256Init

def hexDigit (n : Nat) : Char := "0123456789abcdef".toList.getD n '0'

/-- The eight-character lowercase hex rendering of a 32-bit word. -/
def word32ToHex (n : Nat) : String :=
  ((List.range 8).map (fun i => hexDigit ((n >>> (4 * (7 - i))) % 16))).asString

/-- Lowercase hex SHA-256 digest of a byte list, as
`crypto.createHash('sha256').update(buffer).digest('hex')` returns. -/
def sha256Hex (msg : List Nat) : String :=
  let d := sha256Digest msg
  word32ToHex d.a ++ word32ToHex d.b ++ word32ToHex d.c ++ word32ToHex d.d ++
  word32ToHex d.e ++ word32ToHex d.f ++ word32ToHex d.g ++ word32ToHex d.h

/-- `AIService.hashBuffer` (`aiService.ts:403-408`): the full-width
SHA-256 hex digest of the buffer. -/
def AIService.hashBuffer (buffer : List Nat) : String := sha256Hex buffer

/-! ## Job queue retry policy -/

inductive JobPhase where
  | waiting | active | completed | failed
deriving DecidableEq, Repr

/-- Modelled from the spec: the job queue implementation
(`queueService.ts`, the Bull-backed module that
`imageAnalysisWorker.ts` and the controllers import) is not among the
repository's files; only its callers are.  An `AnalysisJob` is
`\x7bid, queueName, jobType, payload, priority, attemptsMade,
maxAttempts, state\x7d` with states waiting → active →
\x7bcompleted | waiting(retry) | failed\x7d; the fields that the retry
policy reads are kept. -/
structure AnalysisJob where
  attemptsMade : Nat
  maxAttempts : Nat
  phase : JobPhase
deriving DecidableEq, Repr

/-- Modelled from the spec: the transitions of a job whose handler
always throws a retryable error.  A worker claims the waiting job
atomically and marks it active, counting the handler execution
(`attemptsMade` is incremented when processing starts, as in Bull); on
failure the job is re-enqueued while `attemptsMade < maxAttempts` and
otherwise becomes `failed`, which is terminal.  The handler never
succeeds, so no transition reaches `completed`. -/
inductive FailingJobStep : AnalysisJob → AnalysisJob → Prop where
  | claim (a m : Nat) :
      FailingJobStep ⟨a, m, .waiting⟩ ⟨a + 1, m, .active⟩
  | failRetry (a m : Nat) (h : a < m) :
      FailingJobStep ⟨a, m, .active⟩ ⟨a, m, .waiting⟩
  | failFinal (a m : Nat) (h : ¬ a < m) :
      FailingJobStep ⟨a, m, .active⟩ ⟨a, m, .failed⟩

/-- A freshly enqueued job: no attempts made, waiting. -/
def initialJob (maxAttempts : Nat) : AnalysisJob := ⟨0, maxAttempts, .waiting⟩

/-- The states a failing job can pass through from enqueue. -/
def JobReachable (maxAttempts : Nat) (s : AnalysisJob) : Prop :=
  Relation.ReflTransGen FailingJobStep (initialJob maxAttempts) s

/-! ## Helper lemmas about the caption-word loop -/

lemma foldl_addCaptionTag_extends (ws : List String) (ts : List SmartTag) :
    ts <+: ws.foldl addCaptionTag ts := by
  induction ws generalizing ts with
  | nil => exact List.prefix_rfl
  | cons w ws ih =>
      rw [List.foldl_cons]
      refine List.IsPrefix.trans ?_ (ih (addCaptionTag ts w))
      unfold addCaptionTag
      split
      · exact List.prefix_rfl
      · exact List.prefix_append ts _

lemma mem_foldl_addCaptionTag (ws : List String) (ts : List SmartTag) (t : SmartTag)
    (ht : t ∈ ws.foldl addCaptionTag ts) :
    t ∈ ts ∨ ∃ w ∈ ws, t = ⟨w, .activity, 5/10⟩ := by
  induction ws generalizing ts with
  | nil => exact Or.inl ht
  | cons w ws ih =>
      rw [List.foldl_cons] at ht
      rcases ih _ ht with h | ⟨w', hw', rfl⟩
      · unfold addCaptionTag at h
        split at h
        · exact Or.inl h
        · rcases List.mem_append.mp h with h | h
          · exact Or.inl h
          · rw [List.mem_singleton] at h
            exact Or.inr ⟨w, List.mem_cons_self _ _, h⟩
      · exact Or.inr ⟨w', List.mem_cons_of_mem _ hw', rfl⟩

lemma countP_foldl_addCaptionTag (p : SmartTag → Bool)
    (hp : ∀ w, p ⟨w, .activity, 5/10⟩ = false)
    (ws : List String) (ts : List SmartTag) :
    (ws.foldl addCaptionTag ts).countP p = ts.countP p := by
  induction ws generalizing ts with
  | nil => rfl
  | cons w ws ih =>
      rw [List.foldl_cons, ih]
      unfold addCaptionTag
      split
      · rfl
      · rw [List.countP_append]
        simp [List.countP_cons, hp w]

lemma foldl_addCaptionTag_cons_ne_nil (w : String) (ws : List String) :
    (w :: ws).foldl addCaptionTag [] ≠ [] := by
  rw [List.foldl_cons]
  have h1 : addCaptionTag [] w = [⟨w, .activity, 5/10⟩] := by
    simp [addCaptionTag]
  rw [h1]
  intro hcontra
  have hpre := foldl_addCaptionTag_extends ws [⟨w, .activity, 5/10⟩]
  rw [hcontra] at hpre
  simp at hpre

/-! ## Helper lemmas about the fallback extractor -/

lemma extract_objects_tagged (caption : String) (objects : List String)
    (scene : String) (emotions : List String) :
    ∀ o ∈ objects, ∃ t ∈ extractTagsFromText caption objects scene emotions,
      t.name = jsToLower o ∧ t.category = .object := by
  intro o ho
  unfold extractTagsFromText
  refine ⟨⟨jsToLower o, .object, 8/10⟩, ?_, rfl, rfl⟩
  apply (foldl_addCaptionTag_extends _ _).subset
  apply List.mem_append_left
  apply List.mem_append_left
  exact List.mem_map_of_mem _ ho

lemma extract_location_count (caption : String) (objects : List String)
    (scene : String) (emotions : List String)
    (hs : scene ≠ "" ∧ scene ≠ "unknown") :
    (extractTagsFromText caption objects scene emotions).countP
      (fun t => t.category == TagCategory.location) = 1 := by
  unfold extractTagsFromText
  rw [countP_foldl_addCaptionTag _ (fun w => rfl)]
  rw [List.countP_append, List.countP_append]
  have hobj : (objects.map (fun object =>
      ({ name := jsToLower object, category := .object, confidence := 8/10 } : SmartTag))).countP
      (fun t => t.category == TagCategory.location) = 0 := by
    rw [List.countP_eq_zero]
    intro t ht
    obtain ⟨o, _, rfl⟩ := List.mem_map.mp ht
    simp
  have hemo : (emotions.map (fun e =>
      ({ name := jsToLower e, category := .emotion, confidence := 6/10 } : SmartTag))).countP
      (fun t => t.category == TagCategory.location) = 0 := by
    rw [List.countP_eq_zero]
    intro t ht
    obtain ⟨e, _, rfl⟩ := List.mem_map.mp ht
    simp
  rw [if_pos hs, hobj, hemo]
  rfl

lemma extract_activity_from_caption (caption : String) (objects : List String)
    (scene : String) (emotions : List String) :
    ∀ t ∈ extractTagsFromText caption objects scene emotions,
      t.category = .activity →
      t.name ∈ captionWords caption ∧ 3 < t.name.length ∧ t.name ∉ stopWords := by
  intro t ht hcat
  unfold extractTagsFromText at ht
  rcases mem_foldl_addCaptionTag _ _ _ ht with hbase | ⟨w, hw, rfl⟩
  · exfalso
    rcases List.mem_append.mp hbase with h | h
    · rcases List.mem_append.mp h with h | h
      · obtain ⟨o, _, rfl⟩ := List.mem_map.mp h
        simp at hcat
      · split at h
        · rw [List.mem_singleton] at h
          subst h
          simp at hcat
        · simp at h
    · obtain ⟨e, _, rfl⟩ := List.mem_map.mp h
      simp at hcat
  · refine ⟨hw, ?_, ?_⟩
    · have := (List.mem_filter.mp hw).2
      simp at this
      exact this.1
    · have := (List.mem_filter.mp hw).2
      simp at this
      exact this.2

lemma extract_ne_nil (caption : String) (objects : List String)
    (scene : String) (emotions : List String)
    (hsig : objects ≠ [] ∨ (scene ≠ "" ∧ scene ≠ "unknown") ∨
      captionWords caption ≠ []) :
    extractTagsFromText caption objects scene emotions ≠ [] := by
  intro hnil
  simp only [extractTagsFromText] at hnil
  have hpre := foldl_addCaptionTag_extends (captionWords caption)
    ((objects.map (fun object =>
      ({ name := jsToLower object, category := .object, confidence := 8/10 } : SmartTag))) ++
     (if scene ≠ "" ∧ scene ≠ "unknown" then
        [{ name := jsToLower scene, category := .location, confidence := 7/10 }]
      else []) ++
     (emotions.map (fun e =>
      ({ name := jsToLower e, category := .emotion, confidence := 6/10 } : SmartTag))))
  rw [hnil] at hpre
  rw [List.prefix_nil] at hpre
  rcases List.append_eq_nil.mp hpre with ⟨h12, _⟩
  rcases List.append_eq_nil.mp h12 with ⟨h1, h2⟩
  have hobj : objects = [] := List.map_eq_nil_iff.mp h1
  have hscene : ¬(scene ≠ "" ∧ scene ≠ "unknown") := by
    intro hk
    rw [if_pos hk] at h2
    simp at h2
  rcases hsig with h | h | h
  · exact h hobj
  · exact hscene h
  · obtain ⟨w, ws, hws⟩ := List.exists_cons_of_ne_nil h
    rw [hpre, hws] at hnil
    exact foldl_addCaptionTag_cons_ne_nil w ws hnil

/-! ## C3 -/

/-- C3: the rule-based fallback extractor returns, for every input, at
least one `object` tag per detected object (named by its lowercased
label), exactly one `location` tag when the scene is known (truthy) and
not `"unknown"`, caption-derived `activity` tags only for caption words
longer than 3 characters outside the stopword set, and a non-empty list
whenever the caption, objects or scene carries a signal. -/
theorem extractTagsFromText_fallback_guarantees (caption : String)
    (objects : List String) (scene : String) (emotions : List String) :
    (∀ o ∈ objects, ∃ t ∈ extractTagsFromText caption objects scene emotions,
      t.name = jsToLower o ∧ t.category = .object) ∧
    ((scene ≠ "" ∧ scene ≠ "unknown") →
      (extractTagsFromText caption objects scene emotions).countP
        (fun t => t.category == TagCategory.location) = 1) ∧
    (∀ t ∈ extractTagsFromText caption objects scene emotions,
      t.category = .activity →
      t.name ∈ captionWords caption ∧ 3 < t.name.length ∧ t.name ∉ stopWords) ∧
    ((objects ≠ [] ∨ (scene ≠ "" ∧ scene ≠ "unknown") ∨ captionWords caption ≠ []) →
      extractTagsFromText caption objects scene emotions ≠ []) :=
  ⟨extract_objects_tagged caption objects scene emotions,
   extract_location_count caption objects scene emotions,
   extract_activity_from_caption caption objects scene emotions,
   extract_ne_nil caption objects scene emotions⟩

/-- Witness for C3 at a concrete input: one detected object, a known
scene, an empty emotion list. -/
theorem extractTagsFromText_fallback_guarantees_witness :
    (∃ t ∈ extractTagsFromText "two people smiling" ["Dog"] "beach" [],
      t.name = jsToLower "Dog" ∧ t.category = .object) ∧
    (extractTagsFromText "two people smiling" ["Dog"] "beach" []).countP
      (fun t => t.category == TagCategory.location) = 1 ∧
    extractTagsFromText "two people smiling" ["Dog"] "beach" [] ≠ [] := by
  have h := extractTagsFromText_fallback_guarantees "two people smiling" ["Dog"] "beach" []
  exact ⟨h.1 "Dog" (by decide), h.2.1 (by decide), h.2.2.2 (Or.inl (by decide))⟩

/-! ## C1 -/

/-- C1 (amended): when exactly one of the five subtasks (caption,
objects, faces, text, scene) fails and the other four succeed,
`analyzeImage` still resolves successfully and the aggregate carries
the succeeding subtasks' values in the fields that exist for them
(caption, faces, extractedText, scene — detected objects feed only tag
synthesis); the `tags` array is non-empty provided tag generation fell
back to the rule-based extractor and at least one upstream signal
exists (a detected object, a known non-`"unknown"` scene, or a
qualifying caption word). -/
theorem analyzeImage_single_failure_partial
    (captionR : Settled String) (objectsR : Settled (List String))
    (facesR : Settled (List FaceDetection)) (extractedTextR : Settled (List String))
    (sceneR : Settled String) (emotionsR : Settled (List String))
    (tagApi : Option (List SmartTag)) (elapsedMs : Nat)
    (hone : ([captionR.isRejected, objectsR.isRejected, facesR.isRejected,
      extractedTextR.isRejected, sceneR.isRejected].count true) = 1) :
    analyzeImageE captionR objectsR facesR extractedTextR sceneR emotionsR tagApi elapsedMs
      = .ok (analyzeImage captionR objectsR facesR extractedTextR sceneR emotionsR tagApi elapsedMs) ∧
    (∀ c, captionR = .fulfilled c →
      (analyzeImage captionR objectsR facesR extractedTextR sceneR emotionsR tagApi elapsedMs).caption = c) ∧
    (∀ fs, facesR = .fulfilled fs →
      (analyzeImage captionR objectsR facesR extractedTextR sceneR emotionsR tagApi elapsedMs).faces = fs) ∧
    (∀ ts, extractedTextR = .fulfilled ts →
      (analyzeImage captionR objectsR facesR extractedTextR sceneR emotionsR tagApi elapsedMs).extractedText = ts) ∧
    (∀ sc, sceneR = .fulfilled sc →
      (analyzeImage captionR objectsR facesR extractedTextR sceneR emotionsR tagApi elapsedMs).scene = sc) ∧
    (tagApi = none →
      (objectsR.valueOr [] ≠ [] ∨
        (sceneR.valueOr "" ≠ "" ∧ sceneR.valueOr "" ≠ "unknown") ∨
        captionWords (captionR.valueOr "") ≠ []) →
      (analyzeImage captionR objectsR facesR extractedTextR sceneR emotionsR tagApi elapsedMs).tags ≠ []) := by
  refine ⟨rfl, ?_, ?_, ?_, ?_, ?_⟩
  · intro c hc; subst hc; rfl
  · intro fs hf; subst hf; rfl
  · intro ts ht; subst ht; rfl
  · intro sc hs; subst hs; rfl
  · intro htag hsig
    subst htag
    show extractTagsFromText (captionR.valueOr "") (objectsR.valueOr [])
      (sceneR.valueOr "") (emotionsR.valueOr []) ≠ []
    exact extract_ne_nil _ _ _ _ hsig

/-- Witness for C1 at a concrete input: face detection fails, the other
four subtasks succeed with real content, tag generation falls back. -/
theorem analyzeImage_single_failure_partial_witness :
    (analyzeImage (.fulfilled "two people smiling") (.fulfilled ["person"]) .rejected
      (.fulfilled []) (.fulfilled "outdoor") (.fulfilled []) none 7).tags ≠ [] ∧
    (analyzeImage (.fulfilled "two people smiling") (.fulfilled ["person"]) .rejected
      (.fulfilled []) (.fulfilled "outdoor") (.fulfilled []) none 7).scene = "outdoor" := by
  have h := analyzeImage_single_failure_partial (.fulfilled "two people smiling")
    (.fulfilled ["person"]) .rejected (.fulfilled []) (.fulfilled "outdoor")
    (.fulfilled []) none 7 (by decide)
  exact ⟨h.2.2.2.2.2 rfl (Or.inl (by decide)), h.2.2.2.2.1 "outdoor" rfl⟩

/-- C1 counterexample: exactly one of the five subtasks (faces) fails
and the other four succeed — objects with `[]`, text with `[]`, scene
with `"unknown"`, caption with `"cat"` — tag generation falls back, and
`analyzeImage` returns an empty `tags` array: the claimed
unconditional non-emptiness does not hold. -/
theorem analyzeImage_single_failure_empty_tags :
    ([(Settled.fulfilled "cat").isRejected,
      (Settled.fulfilled ([] : List String)).isRejected,
      (Settled.rejected : Settled (List FaceDetection)).isRejected,
      (Settled.fulfilled ([] : List String)).isRejected,
      (Settled.fulfilled "unknown").isRejected].count true) = 1 ∧
    (analyzeImage (.fulfilled "cat") (.fulfilled []) .rejected (.fulfilled [])
      (.fulfilled "unknown") (.fulfilled []) none 5).tags = [] := by
  exact ⟨by decide, by decide⟩

/-! ## C2 -/

/-- C2 (amended): a failing or timed-out subtask is represented by a
neutral default, never an error value: in `AIService.analyzeImage` the
corresponding field is `null` (absent), while in
`AIAnalysisService.analyzeImage` it is the branch's fixed default —
the sentinel `"No caption available"` for the caption, `[]` for faces,
extracted text and emotions, and `"unknown"` for the scene. -/
theorem subtask_failure_maps_to_defaults
    (captionR : Settled String) (objectsR : Settled (List String))
    (facesR : Settled (List FaceDetection)) (extractedTextR : Settled (List String))
    (sceneR : Settled String) (emotionsR : Settled (List String))
    (tagApi : Option (List SmartTag)) (elapsedMs : Nat)
    (opts : AnalyzeOptions) (captionO : Option String)
    (objectsO : Option (List DetectedObject)) (facesO : Option (List AIFace))
    (textO : Option (List String)) (sceneO : Option SceneResult)
    (tagJob : String → Option (List SmartTag)) (elapsed : Nat) :
    (captionR = .rejected →
      (analyzeImage captionR objectsR facesR extractedTextR sceneR emotionsR tagApi elapsedMs).caption
        = "No caption available") ∧
    (facesR = .rejected →
      (analyzeImage captionR objectsR facesR extractedTextR sceneR emotionsR tagApi elapsedMs).faces = []) ∧
    (extractedTextR = .rejected →
      (analyzeImage captionR objectsR facesR extractedTextR sceneR emotionsR tagApi elapsedMs).extractedText = []) ∧
    (sceneR = .rejected →
      (analyzeImage captionR objectsR facesR extractedTextR sceneR emotionsR tagApi elapsedMs).scene = "unknown") ∧
    (emotionsR = .rejected →
      (analyzeImage captionR objectsR facesR extractedTextR sceneR emotionsR tagApi elapsedMs).emotions = []) ∧
    (captionO = none →
      (AIService.analyzeImage opts captionO objectsO facesO textO sceneO tagJob elapsed).caption = none) ∧
    (objectsO = none →
      (AIService.analyzeImage opts captionO objectsO facesO textO sceneO tagJob elapsed).objects = none) ∧
    (facesO = none →
      (AIService.analyzeImage opts captionO objectsO facesO textO sceneO tagJob elapsed).faces = none) ∧
    (textO = none →
      (AIService.analyzeImage opts captionO objectsO facesO textO sceneO tagJob elapsed).extractedText = none) ∧
    (sceneO = none →
      (AIService.analyzeImage opts captionO objectsO facesO textO sceneO tagJob elapsed).scene = none) := by
  refine ⟨?_, ?_, ?_, ?_, ?_, ?_, ?_, ?_, ?_, ?_⟩ <;> intro h <;> subst h <;>
    simp [analyzeImage, AIService.analyzeImage, Settled.valueOr]

/-- Witness for C2 at concrete inputs: the caption subtask fails in
both services. -/
theorem subtask_failure_maps_to_defaults_witness :
    (analyzeImage .rejected (.fulfilled []) (.fulfilled []) (.fulfilled [])
      (.fulfilled "beach") (.fulfilled []) none 3).caption = "No caption available" ∧
    (AIService.analyzeImage ⟨true, true, true, true, true, true, true⟩ none none none
      none none (fun _ => none) 3).caption = none := by
  have h := subtask_failure_maps_to_defaults .rejected (.fulfilled []) (.fulfilled [])
    (.fulfilled []) (.fulfilled "beach") (.fulfilled []) none 3
    ⟨true, true, true, true, true, true, true⟩ none none none none none (fun _ => none) 3
  exact ⟨h.1 rfl, h.2.2.2.2.2.1 rfl⟩

/-- C2 counterexample: in `AIAnalysisService.analyzeImage` a failed
caption subtask yields the non-empty sentinel string
`"No caption available"` and a failed scene subtask the sentinel
`"unknown"` — the fields are present with placeholder values, not
omitted or empty as the claim states. -/
theorem subtask_failure_caption_sentinel :
    (analyzeImage .rejected (.fulfilled []) (.fulfilled []) (.fulfilled [])
      .rejected (.fulfilled []) none 0).caption = "No caption available" ∧
    "No caption available" ≠ "" ∧
    (analyzeImage .rejected (.fulfilled []) (.fulfilled []) (.fulfilled [])
      .rejected (.fulfilled []) none 0).scene = "unknown" ∧
    "unknown" ≠ "" := by
  exact ⟨by decide, by decide, by decide, by decide⟩

/-! ## C8 -/

/-- C8 (amended): in `AIService` the tag-synthesis prompt — and hence
the tags field — is a deterministic function of exactly the caption,
detected-object, scene and extracted-text outcomes: the faces outcome
and the elapsed time never influence it.  In `AIAnalysisService` the
prompt inputs are caption, object names, scene and detected emotions:
the faces and extracted-text outcomes never influence the tags. -/
theorem tag_prompt_determined_by_inputs
    (opts : AnalyzeOptions) (captionO : Option String)
    (objectsO : Option (List DetectedObject)) (facesO facesO' : Option (List AIFace))
    (textO : Option (List String)) (sceneO : Option SceneResult)
    (tagJob : String → Option (List SmartTag)) (e1 e2 : Nat)
    (captionR : Settled String) (objectsR : Settled (List String))
    (facesR facesR' : Settled (List FaceDetection))
    (extractedTextR extractedTextR' : Settled (List String))
    (sceneR : Settled String) (emotionsR : Settled (List String))
    (tagApi : Option (List SmartTag)) (m1 m2 : Nat) :
    (AIService.analyzeImage opts captionO objectsO facesO textO sceneO tagJob e1).tags
      = (AIService.analyzeImage opts captionO objectsO facesO' textO sceneO tagJob e2).tags ∧
    (analyzeImage captionR objectsR facesR extractedTextR sceneR emotionsR tagApi m1).tags
      = (analyzeImage captionR objectsR facesR' extractedTextR' sceneR emotionsR tagApi m2).tags := by
  exact ⟨rfl, rfl⟩

/-- C8 counterexample: two `AIAnalysisService` runs with identical
caption, detected objects, scene (and extracted text, which is not even
a prompt input there) but different detected emotions build different
tag-synthesis prompts — an analysis output outside the claimed four
influences the prompt. -/
theorem tag_prompt_depends_on_emotions :
    smartTagPrompt "a" [] "b" ["joy"] ≠ smartTagPrompt "a" [] "b" [] := by decide

/-! ## C9 -/

/-- C9: both content fingerprints are pure functions of the byte
buffer alone — no ambient state enters either definition — so
byte-identical buffers receive identical digest strings on every call,
including across process restarts. -/
theorem hashBuffer_deterministic (b1 b2 : List Nat) (h : b1 = b2) :
    AIAnalysisService.hashBuffer b1 = AIAnalysisService.hashBuffer b2 ∧
    AIService.hashBuffer b1 = AIService.hashBuffer b2 := by
  subst h
  exact ⟨rfl, rfl⟩

/-- Witness for C9 at a concrete two-byte buffer. -/
theorem hashBuffer_deterministic_witness :
    ([104, 105] : List Nat) = [104, 105] ∧
    AIAnalysisService.hashBuffer [104, 105] = AIAnalysisService.hashBuffer [104, 105] ∧
    AIService.hashBuffer [104, 105] = AIService.hashBuffer [104, 105] :=
  ⟨rfl, (hashBuffer_deterministic [104, 105] [104, 105] rfl).1,
   (hashBuffer_deterministic [104, 105] [104, 105] rfl).2⟩

/-! ## C5 -/

set_option maxRecDepth 100000 in
/-- C5 (code bug): `AIAnalysisService.hashBuffer` is not a full-width
digest — it keeps only the first 20 base64 characters, i.e. the first
15 bytes of the buffer, so two distinct 16-byte buffers collide, while
the full-width SHA-256 digest of `AIService.hashBuffer` separates them
and always spans 64 hex characters. -/
theorem hashBuffer_truncation_collision :
    List.replicate 16 0 ≠ List.replicate 15 0 ++ [255] ∧
    AIAnalysisService.hashBuffer (List.replicate 16 0)
      = AIAnalysisService.hashBuffer (List.replicate 15 0 ++ [255]) ∧
    AIService.hashBuffer (List.replicate 16 0)
      ≠ AIService.hashBuffer (List.replicate 15 0 ++ [255]) ∧
    (AIService.hashBuffer (List.replicate 16 0)).length = 64 := by
  exact ⟨by decide, by decide, by decide, by decide⟩

/-! ## C7 -/

lemma failingJob_inv (m : Nat) (hm : 1 ≤ m) :
    ∀ s, JobReachable m s →
      s.maxAttempts = m ∧ s.attemptsMade ≤ m ∧
        (s.phase = .waiting → s.attemptsMade < m) := by
  intro s hs
  induction hs with
  | refl => exact ⟨rfl, Nat.zero_le m, fun _ => hm⟩
  | tail hab hbc ih =>
      obtain ⟨hmax, hle, hwait⟩ := ih
      cases hbc with
      | claim a mm =>
          have h2 : a < m := hwait rfl
          exact ⟨hmax, by show a + 1 ≤ m; omega, fun h => by simp at h⟩
      | failRetry a mm h =>
          have hmm : mm = m := hmax
          exact ⟨hmax, hle, fun _ => by show a < m; omega⟩
      | failFinal a mm h =>
          exact ⟨hmax, hle, fun hc => by simp at hc⟩

lemma reach_failed_from_waiting_aux (m n : Nat) :
    ∀ a, m - a = n → a < m →
      Relation.ReflTransGen FailingJobStep ⟨a, m, .waiting⟩ ⟨m, m, .failed⟩ := by
  induction n with
  | zero => intro a hn ha; exact absurd hn (by omega)
  | succ n ih =>
      intro a hn ha
      by_cases hlt : a + 1 < m
      · have step1 : FailingJobStep ⟨a, m, .waiting⟩ ⟨a + 1, m, .active⟩ :=
          .claim a m
        have step2 : FailingJobStep ⟨a + 1, m, .active⟩ ⟨a + 1, m, .waiting⟩ :=
          .failRetry (a + 1) m hlt
        have rest := ih (a + 1) (by omega) hlt
        exact .trans (.trans (.single step1) (.single step2)) rest
      · have ham : a + 1 = m := by omega
        subst ham
        have step1 : FailingJobStep ⟨a, a + 1, .waiting⟩ ⟨a + 1, a + 1, .active⟩ :=
          .claim a (a + 1)
        have step2 : FailingJobStep ⟨a + 1, a + 1, .active⟩ ⟨a + 1, a + 1, .failed⟩ :=
          .failFinal (a + 1) (a + 1) (by omega)
        exact (Relation.ReflTransGen.single step1).tail step2

lemma reach_failed_from_waiting (m a : Nat) (ha : a < m) :
    Relation.ReflTransGen FailingJobStep ⟨a, m, .waiting⟩ ⟨m, m, .failed⟩ :=
  reach_failed_from_waiting_aux m (m - a) a rfl ha

lemma failed_terminal (a m : Nat) : ∀ s', ¬ FailingJobStep ⟨a, m, .failed⟩ s' :=
  fun _ h => nomatch h

/-- C7: for a job with `maxAttempts ≥ 1` whose handler always throws a
retryable error, `attemptsMade` — which counts handler executions,
being incremented exactly when a worker claims the job — never exceeds
`maxAttempts` in any reachable state, the job reaches the `failed`
state with `attemptsMade = maxAttempts`, and `failed` is terminal: the
queue never retries a job unboundedly.  (Spec-modelled: the queue
module itself is not among the repository's files.) -/
theorem failing_job_bounded_retry (m : Nat) (hm : 1 ≤ m) :
    (∀ s, JobReachable m s → s.attemptsMade ≤ m) ∧
    JobReachable m ⟨m, m, .failed⟩ ∧
    (∀ s', ¬ FailingJobStep ⟨m, m, .failed⟩ s') :=
  ⟨fun s hs => (failingJob_inv m hm s hs).2.1,
   reach_failed_from_waiting m 0 hm,
   failed_terminal m m⟩

/-- Witness for C7 at `maxAttempts = 2`. -/
theorem failing_job_bounded_retry_witness :
    1 ≤ 2 ∧ JobReachable 2 ⟨2, 2, .failed⟩ ∧ (initialJob 2).attemptsMade ≤ 2 :=
  ⟨by decide, (failing_job_bounded_retry 2 (by decide)).2.1,
   (failing_job_bounded_retry 2 (by decide)).1 _ Relation.ReflTransGen.refl⟩

/-! ## Cache lookup lemmas -/

lemma lookupEntry_eraseEntry (m : List (String × CacheEntry)) (key : String) :
    lookupEntry (eraseEntry m key) key = none := by
  simp only [lookupEntry, eraseEntry, Option.map_eq_none']
  rw [List.find?_eq_none]
  intro x hx
  have h := (List.mem_filter.mp hx).2
  simpa using h

lemma lookupEntry_storeEntry (m : List (String × CacheEntry)) (key : String)
    (v : CVal) (exp : Nat) :
    lookupEntry (storeEntry m key v exp) key = some ⟨v, exp⟩ := by
  simp [lookupEntry, storeEntry]

/-! ## C4 -/

/-- C4: with the L2 tier failing on every access (connection open, each
Redis call throwing), `getWithCache` still returns the freshly computed
value — the internal error exists (`getWithCacheBody` errors) but the
`catch` contains it — and `setCache`/`deleteCache` complete, applying
their L1 effect and swallowing the L2 error, so no cache operation
raises the failure to the caller. -/
theorem cache_degrades_when_l2_fails (st : CacheState) (now : Nat) (key : String)
    (fetchVal : CVal) (ttl : Nat) (data : CVal) (dttl : Nat)
    (hfail : st.l2fails = true) (hopen : st.l2open = true)
    (hmiss : ∀ e, lookupEntry st.l1 key = some e → now < e.expiresAt →
      e.value.truthy = false) :
    (getWithCache st now key fetchVal ttl).1 = fetchVal ∧
    (getWithCacheBody st now key fetchVal ttl).isOk = false ∧
    setCache st now key data dttl
      = { st with l1 := storeEntry st.l1 key data (now + memoryCacheStdTTL) } ∧
    deleteCache st key = { st with l1 := eraseEntry st.l1 key } := by
  have hL2 : getWithCacheL2 st now key fetchVal ttl
      = .error ("Redis Client Error", st) := by
    simp [getWithCacheL2, redisGet, hfail, hopen]
  have hbody : getWithCacheBody st now key fetchVal ttl
      = .error ("Redis Client Error", st) := by
    unfold getWithCacheBody
    cases hl : lookupEntry st.l1 key with
    | none => simpa [liveValue] using hL2
    | some e =>
        simp only [liveValue]
        by_cases hlt : now < e.expiresAt
        · rw [if_pos hlt]
          show (if e.value.truthy = true then Except.ok (e.value, st)
            else getWithCacheL2 st now key fetchVal ttl)
              = Except.error ("Redis Client Error", st)
          rw [hmiss e hl hlt]
          simpa using hL2
        · rw [if_neg hlt]
          exact hL2
  refine ⟨?_, ?_, ?_, ?_⟩
  · rw [getWithCache, hbody]
  · rw [hbody]; rfl
  · simp [setCache, setCacheBody, redisSetEx, hfail, hopen]
  · simp [deleteCache, deleteCacheBody, redisDel, hfail, hopen]

/-- Witness for C4 at a concrete state: empty L1, open but failing L2. -/
theorem cache_degrades_when_l2_fails_witness :
    (getWithCache ⟨[], [], true, true⟩ 0 "k" (.vstr "fresh") 60).1 = .vstr "fresh" ∧
    (getWithCacheBody ⟨[], [], true, true⟩ 0 "k" (.vstr "fresh") 60).isOk = false := by
  have h := cache_degrades_when_l2_fails ⟨[], [], true, true⟩ 0 "k" (.vstr "fresh") 60
    (.vstr "d") 30 rfl rfl (by intro e he; simp [lookupEntry] at he)
  exact ⟨h.1, h.2.1⟩

/-! ## C6 -/

/-- C6: with the L2 tier reachable, a `getWithCache` performed after
`setCache(key, v, ttl)` and before `ttl` has elapsed returns `v`, both
from the warm L1 the write populated (falling through to L2 when the
L1 copy has expired — its default TTL is 300 s — or when `v` is falsy)
and from a cold, empty L1 as a different process would see, served
through L2. -/
theorem get_after_set_returns_value (st : CacheState) (tset now : Nat)
    (key : String) (v : CVal) (t : Nat) (fetchVal : CVal) (ttl : Nat)
    (hopen : st.l2open = true) (hfails : st.l2fails = false)
    (hlive : now < tset + t) :
    (getWithCache (setCache st tset key v t) now key fetchVal ttl).1 = v ∧
    (getWithCache { setCache st tset key v t with l1 := [] } now key fetchVal ttl).1 = v := by
  have hset : setCache st tset key v t =
      { st with l1 := storeEntry st.l1 key v (tset + memoryCacheStdTTL),
                l2 := storeEntry st.l2 key v (tset + t) } := by
    simp [setCache, setCacheBody, redisSetEx, hopen, hfails]
  have hL2hit : ∀ st' : CacheState, st'.l2open = true → st'.l2fails = false →
      st'.l2 = storeEntry st.l2 key v (tset + t) →
      (match getWithCacheL2 st' now key fetchVal ttl with
        | .ok r => r
        | .error (_, stErr) => (fetchVal, stErr)).1 = v := by
    intro st' ho hf hl2
    simp [getWithCacheL2, redisGet, ho, hf, hl2, lookupEntry_storeEntry,
      liveValue, hlive]
  rw [hset]
  constructor
  · rw [getWithCache, getWithCacheBody]
    rw [show lookupEntry (storeEntry st.l1 key v (tset + memoryCacheStdTTL)) key
      = some ⟨v, tset + memoryCacheStdTTL⟩ from lookupEntry_storeEntry _ _ _ _]
    simp only [liveValue]
    by_cases hw : now < tset + memoryCacheStdTTL
    · rw [if_pos hw]
      show (match (if CVal.truthy v = true then
          Except.ok (v, { st with l1 := storeEntry st.l1 key v (tset + memoryCacheStdTTL),
                                  l2 := storeEntry st.l2 key v (tset + t) })
        else getWithCacheL2 { st with l1 := storeEntry st.l1 key v (tset + memoryCacheStdTTL),
                                      l2 := storeEntry st.l2 key v (tset + t) } now key fetchVal ttl)
          with
        | .ok r => r
        | .error (_, stErr) => (fetchVal, stErr)).1 = v
      by_cases htr : v.truthy = true
      · rw [if_pos htr]
      · rw [if_neg htr]
        exact hL2hit _ hopen hfails rfl
    · rw [if_neg hw]
      exact hL2hit _ hopen hfails rfl
  · rw [getWithCache, getWithCacheBody]
    show (match getWithCacheL2 _ now key fetchVal ttl with
      | .ok r => r
      | .error (_, stErr) => (fetchVal, stErr)).1 = v
    exact hL2hit _ hopen hfails rfl

/-- Witness for C6 at a concrete state, key and value. -/
theorem get_after_set_returns_value_witness :
    (getWithCache (setCache ⟨[], [], true, false⟩ 0 "k" (.vstr "a") 100) 10 "k"
      (.vstr "fresh") 60).1 = .vstr "a" ∧
    (getWithCache { setCache ⟨[], [], true, false⟩ 0 "k" (.vstr "a") 100 with l1 := [] }
      10 "k" (.vstr "fresh") 60).1 = .vstr "a" :=
  get_after_set_returns_value ⟨[], [], true, false⟩ 0 10 "k" (.vstr "a") 100
    (.vstr "fresh") 60 rfl rfl (by decide)

/-! ## C10 -/

/-- C10: when the L1 tier holds a falsy value (empty string, 0, false,
null) for the key — live, within its TTL — `getWithCache` treats the
L1 lookup as a miss: the value it returns is the one it would return
with no L1 entry at all for that key, i.e. the L2 hit or the freshly
computed value, never the stored falsy L1 value as such. -/
theorem falsy_l1_value_treated_as_miss (st : CacheState) (now : Nat) (key : String)
    (fetchVal : CVal) (ttl : Nat) (e : CacheEntry)
    (hl1 : lookupEntry st.l1 key = some e) (hlt : now < e.expiresAt)
    (hfalsy : e.value.truthy = false) :
    (getWithCache st now key fetchVal ttl).1
      = (getWithCache { st with l1 := eraseEntry st.l1 key } now key fetchVal ttl).1 := by
  rw [getWithCache, getWithCache, getWithCacheBody, getWithCacheBody, hl1,
    lookupEntry_eraseEntry]
  simp only [liveValue]
  rw [if_pos hlt]
  show (match (if e.value.truthy = true then Except.ok (e.value, st)
      else getWithCacheL2 st now key fetchVal ttl) with
    | .ok r => r
    | .error (_, stErr) => (fetchVal, stErr)).1
    = (match getWithCacheL2 { st with l1 := eraseEntry st.l1 key } now key fetchVal ttl with
      | .ok r => r
      | .error (_, stErr) => (fetchVal, stErr)).1
  rw [hfalsy]
  simp only [Bool.false_eq_true, if_false]
  unfold getWithCacheL2 getWithCacheMiss redisGet redisSetEx
  cases hopen : st.l2open <;> cases hfails : st.l2fails <;>
    simp only [hopen, hfails, Bool.false_eq_true, if_false, if_true] <;>
    cases liveValue now (lookupEntry st.l2 key) <;> simp

/-- Witness for C10: L1 holds the falsy `""` for the key within TTL,
L2 holds `"z"`; the call serves the L2 value on both sides. -/
theorem falsy_l1_value_treated_as_miss_witness :
    (getWithCache ⟨[("k", ⟨.vstr "", 100⟩)], [("k", ⟨.vstr "z", 200⟩)], true, false⟩
      0 "k" (.vstr "fresh") 60).1
      = (getWithCache { (⟨[("k", ⟨.vstr "", 100⟩)], [("k", ⟨.vstr "z", 200⟩)], true, false⟩ : CacheState)
          with l1 := eraseEntry [("k", ⟨.vstr "", 100⟩)] "k" } 0 "k" (.vstr "fresh") 60).1 :=
  falsy_l1_value_treated_as_miss
    ⟨[("k", ⟨.vstr "", 100⟩)], [("k", ⟨.vstr "z", 200⟩)], true, false⟩
    0 "k" (.vstr "fresh") 60 ⟨.vstr "", 100⟩ rfl (by decide) rfl
